import Mathlib

/-!
Verification of the MomayBackend02 energy/billing server (`src/px_dh-daily-bill.js`
and the unnamed server variants) against its natural-language specification.

Modelling conventions:
* JS numbers are modelled as exact rationals (`ℚ`); timestamps are integer
  milliseconds since the epoch (`ℤ`), as produced by JS `Date` subtraction.
* `Number(x.toFixed(2))` is modelled by `round2` (round half away from zero at
  two decimals; all concrete values used here are nonnegative or tie-free, where
  this agrees with JS).
* The MongoDB query boundary is modelled by passing the handler the list of
  samples the query would return for the requested window, already sorted by
  timestamp (the code always sorts ascending in the query).
* The module-level mutable peak state (`dailyPeak`, `halfThresholdAlertSent`)
  is modelled by explicit state passing; the poll body `checkDailyPeak` becomes
  a pure step function returning the new state and the notifications emitted.
-/

namespace Momay

/-- One power sample: timestamp in milliseconds since the epoch and
instantaneous power in kW (`power timestamp` projection used by the handlers). -/
structure Sample where
  ts : ℤ
  power : ℚ
deriving DecidableEq

/-- Milliseconds per hour; JS interval arithmetic divides by 1000 and 3600. -/
def msPerHour : ℤ := 3600000

/-- Model of JS `Number(x.toFixed(2))`: round to two decimal places. -/
def round2 (x : ℚ) : ℚ := ((round (x * 100) : ℤ) : ℚ) / 100

/-- Default electricity rate used throughout the server (4.4 baht per kWh). -/
def defaultRate : ℚ := 44 / 10

/-- `calculateBill` from `px_dh-daily-bill.js` line 47:
`Number((energyKwh * ratePerKwh).toFixed(2))` with default rate 4.4. -/
def calculateBill (energyKwh : ℚ) (ratePerKwh : ℚ := defaultRate) : ℚ :=
  round2 (energyKwh * ratePerKwh)

/-- Elapsed hours between two samples: `(curr.ts - prev.ts) / 1000 / 3600`. -/
def intervalHours (prev curr : Sample) : ℚ :=
  ((curr.ts - prev.ts : ℤ) : ℚ) / 1000 / 3600

/-- Average power of a consecutive pair: `(prev.power + curr.power) / 2`. -/
def avgPower (prev curr : Sample) : ℚ := (prev.power + curr.power) / 2

/-- Trapezoid contribution of one consecutive pair, as accumulated by the
`/daily-bill` loop (lines 114-123): `((p_i + p_{i-1}) / 2) * intervalHours`. -/
def pairEnergy (prev curr : Sample) : ℚ := avgPower prev curr * intervalHours prev curr

/-- Unbucketed total energy of an ordered sample list: the `totalEnergyKwh`
accumulator of the `/daily-bill` handler loop. -/
def totalEnergyKwh : List Sample → ℚ
  | a :: b :: rest => pairEnergy a b + totalEnergyKwh (b :: rest)
  | _ => 0

/-- Start of the clock hour containing instant `t` (JS `setMinutes(60,0,0)` /
`setUTCHours(h+1,0,0,0)` truncate to the hour before stepping). `%` on `ℤ` is
Euclidean, so this is the floor to the hour for every instant. -/
def hourStart (t : ℤ) : ℤ := t - t % msPerHour

/-- The next hour boundary strictly after `t`. -/
def nextHourBoundary (t : ℤ) : ℤ := hourStart t + msPerHour

/-- Hour-of-day (0-23) of an instant, as `getHours`/`getUTCHours` return for a
timestamp interpreted in the timezone the store uses. -/
def hourOfDay (t : ℤ) : Fin 24 :=
  ⟨((t / msPerHour) % 24).toNat, by
    have h1 := Int.emod_nonneg (t / msPerHour) (by norm_num : (24:ℤ) ≠ 0)
    have h2 := Int.emod_lt_of_pos (t / msPerHour) (by norm_num : (0:ℤ) < 24)
    omega⟩

/-- Hours spanned by one sub-interval `(segStart, segEnd)`. -/
def segHours (seg : ℤ × ℤ) : ℚ := ((seg.2 - seg.1 : ℤ) : ℚ) / 1000 / 3600

/-- Fuel-indexed splitting of `[s, e)` at hour boundaries: the body of the
`while (start < end)` loops of `addEnergyToHours`, `addEnergy` and the
`/solar-size` handler. Each iteration advances by at least one millisecond, so
`(e - s).toNat` units of fuel make this total; `splitSegments` supplies them. -/
def splitSegmentsAux : ℕ → ℤ → ℤ → List (ℤ × ℤ)
  | 0, _, _ => []
  | n + 1, s, e =>
    if s < e then
      (s, min (nextHourBoundary s) e) :: splitSegmentsAux n (min (nextHourBoundary s) e) e
    else []

/-- The sub-intervals the hour-splitting while-loop walks through from `s` to `e`:
`intervalEnd = nextHour < end ? nextHour : end` at each step. -/
def splitSegments (s e : ℤ) : List (ℤ × ℤ) := splitSegmentsAux (e - s).toNat s e

/-- Add `q` kWh to bucket `i`, leaving the other 23 buckets unchanged
(`hourlyEnergy[hour] += ...`). -/
def bump (b : Fin 24 → ℚ) (i : Fin 24) (q : ℚ) : Fin 24 → ℚ :=
  fun j => if j = i then b j + q else b j

/-- `addEnergyToHours` (line 269) / `addEnergy` (line 320) / the `/solar-size`
splitting loop (lines 543-559): distribute the pair's energy over the hour
buckets, attributing `avgPower * hours(sub-interval)` to the bucket of each
sub-interval's start. -/
def addEnergyToHours (prev curr : Sample) (buckets : Fin 24 → ℚ) : Fin 24 → ℚ :=
  (splitSegments prev.ts curr.ts).foldl
    (fun bk seg => bump bk (hourOfDay seg.1) (avgPower prev curr * segHours seg))
    buckets

/-- The 24 hour-buckets accumulated by the `/hourly-bill/:date` handler
(`for (let i = 1; ...) addEnergy(data[i-1], data[i])`). -/
def hourlyBillBuckets : List Sample → (Fin 24 → ℚ) → (Fin 24 → ℚ)
  | a :: b :: rest, bk => hourlyBillBuckets (b :: rest) (addEnergyToHours a b bk)
  | _, bk => bk

/-- The 24 hour-buckets accumulated by the `/hourly-summary` handler
(lines 438-448): the whole pair energy is credited to the hour of the earlier
sample (`hourKey = prev.timestamp.getUTCHours()`), with no splitting. -/
def hourlySummaryBuckets : List Sample → (Fin 24 → ℚ) → (Fin 24 → ℚ)
  | a :: b :: rest, bk =>
    hourlySummaryBuckets (b :: rest) (bump bk (hourOfDay a.ts) (pairEnergy a b))
  | _, bk => bk

/-- Model of the date validation `/^\d{4}-\d{2}-\d{2}$/.test(s)`: exactly ten
characters, digits in positions 0-3, 5-6 and 8-9 and a hyphen at 4 and 7. This
is a format check only; calendar validity is never inspected. -/
def matchesDateFormat (s : String) : Bool :=
  match s.toList with
  | [a, b, c, d, h1, f, g, h2, i, j] =>
    a.isDigit && b.isDigit && c.isDigit && d.isDigit && h1 = '-' &&
    f.isDigit && g.isDigit && h2 = '-' && i.isDigit && j.isDigit
  | _ => false

/-- Running maximum of the `/daily-bill` loop: `maxPower` starts at `0` and is
replaced whenever `p > maxPower`. -/
def maxPowerAcc (powers : List ℚ) : ℚ :=
  powers.foldl (fun m p => if m < p then p else m) 0

/-- Running minimum of the `/daily-bill` loop: `minPower` starts at `Infinity`
(modelled by `none`) and is replaced whenever `p < minPower`; every rational is
below `Infinity`, so the first sample always replaces `none`. -/
def minPowerAcc (powers : List ℚ) : Option ℚ :=
  powers.foldl
    (fun m p => match m with
      | none => some p
      | some v => if p < v then some p else some v)
    none

/-- Shape of the `/daily-bill` JSON response; numeric fields are `0` in the
400/404 branches where the code omits or zeroes them. -/
structure DailyBillResponse where
  status : ℕ
  samples : ℕ
  total_energy_kwh : ℚ
  avg_power_kw : ℚ
  max_power_kw : ℚ
  min_power_kw : ℚ
  electricity_bill : ℚ
  rate_per_kwh : ℚ
deriving DecidableEq

/-- The `GET /daily-bill` handler (lines 85-142) on the sample list its day
query returns: 400 when the regex fails, 404 with zeroed
`total_energy_kwh`/`electricity_bill` when the query is empty, otherwise the
computed metrics, each rounded to two decimals at the response boundary; the
bill is computed from the unrounded total. -/
def dailyBillHandler (dateStr : String) (data : List Sample) : DailyBillResponse :=
  if matchesDateFormat dateStr = false then
    ⟨400, 0, 0, 0, 0, 0, 0, 0⟩
  else if data.length = 0 then
    ⟨404, 0, 0, 0, 0, 0, 0, 0⟩
  else
    let powers := data.map Sample.power
    let tot := totalEnergyKwh data
    ⟨200, data.length, round2 tot, round2 (powers.sum / (data.length : ℚ)),
      round2 (maxPowerAcc powers), round2 ((minPowerAcc powers).getD 0),
      calculateBill tot, defaultRate⟩

/-- The `/calendar` handler's per-day energy (lines 185-193): the trapezoid
total, rounded to two decimals before any further use. -/
def calendarDayEnergy (dayData : List Sample) : ℚ := round2 (totalEnergyKwh dayData)

/-- The `/calendar` handler's per-day bill (line 194): `calculateBill` applied
to the already-rounded energy. -/
def calendarBill (dayData : List Sample) : ℚ := calculateBill (calendarDayEnergy dayData)

/-- The `/hourly-summary` presentation step (lines 450-454): each bucket is
rounded first and the bill is computed from the rounded figure. -/
def hourlySummaryBill (bucketEnergy : ℚ) : ℚ := round2 (round2 bucketEnergy * defaultRate)

/-- The `/solar-size` daytime total (lines 561-573): the sum over hour indices
6..18 of the already-rounded per-bucket `energy_kwh` values
(`hourlyArray.slice(6, 19).reduce(...)`). -/
def solarDaytimeEnergy (buckets : Fin 24 → ℚ) : ℚ :=
  (Finset.univ.filter (fun j : Fin 24 => 6 ≤ j.val ∧ j.val ≤ 18)).sum
    (fun j => round2 (buckets j))

/-- Latest sample as seen by the peak monitor: the calendar date its timestamp
falls on and its power (`latest.power || 0`, powers given as numbers). -/
structure PeakSample where
  dateStr : String
  power : ℚ
deriving DecidableEq

/-- The monitor's transient state: `dailyPeak = { date, maxPower }` together
with the `halfThresholdAlertSent` flag of `px_dh-daily-bill.js`. -/
structure PeakState where
  date : String
  maxPower : ℚ
  alertSent : Bool
deriving DecidableEq

/-- Notifications the poll can emit, tagged with the observed power. -/
inductive Notif where
  | peak (power : ℚ)
  | thresholdCrossed (power : ℚ)
deriving DecidableEq

/-- One poll of `checkDailyPeak` (`px_dh-daily-bill.js` lines 1036-1090, and
`unnamed/part_000` lines 840-867 for the peak branch): reset the state when the
wall-clock date `today` differs from `dailyPeak.date`, then emit a peak
notification when the power exceeds the stored maximum, then emit a threshold
notification when `power >= halfMaxKW` and the flag is still clear. The
threshold constant `halfMaxKW` has no declaration under `src/`, so it is a
parameter here; every theorem below holds for all its values. -/
def checkDailyPeakStep (today : String) (halfMaxKW : ℚ) (latest : PeakSample)
    (s : PeakState) : PeakState × List Notif :=
  let s1 := if s.date ≠ today then { date := today, maxPower := 0, alertSent := false } else s
  let p := latest.power
  let s2 := if s1.maxPower < p then { s1 with maxPower := p } else s1
  let peakNotifs : List Notif := if s1.maxPower < p then [Notif.peak p] else []
  let s3 := if halfMaxKW ≤ p ∧ s2.alertSent = false then { s2 with alertSent := true } else s2
  let thrNotifs : List Notif :=
    if halfMaxKW ≤ p ∧ s2.alertSent = false then [Notif.thresholdCrossed p] else []
  (s3, peakNotifs ++ thrNotifs)

/-- A sequence of polls, each observing one latest sample, threading the state
and concatenating the emitted notifications in order. -/
def runMonitor (today : String) (halfMaxKW : ℚ) : List PeakSample → PeakState →
    PeakState × List Notif
  | [], s => (s, [])
  | x :: xs, s =>
    let r1 := checkDailyPeakStep today halfMaxKW x s
    let r2 := runMonitor today halfMaxKW xs r1.1
    (r2.1, r1.2 ++ r2.2)

/-- Powers carried by the peak notifications of a notification list, in order. -/
def peakPowers (ns : List Notif) : List ℚ :=
  ns.filterMap (fun n => match n with | Notif.peak p => some p | _ => none)

/-- Number of threshold-crossed notifications in a notification list. -/
def thresholdCount (ns : List Notif) : ℕ :=
  (ns.filter (fun n => match n with | Notif.thresholdCrossed _ => true | _ => false)).length

/-! ### Basic facts about hour boundaries and the splitting loop -/

theorem hourStart_le (t : ℤ) : hourStart t ≤ t := by
  have h1 := Int.emod_nonneg t (by norm_num [msPerHour] : msPerHour ≠ 0)
  unfold hourStart
  omega

theorem lt_nextHourBoundary (t : ℤ) : t < nextHourBoundary t := by
  have h2 := Int.emod_lt_of_pos t (by norm_num [msPerHour] : 0 < msPerHour)
  unfold nextHourBoundary hourStart
  omega

theorem splitSegmentsAux_lenSum : ∀ (n : ℕ) (s e : ℤ), (e - s).toNat ≤ n → s ≤ e →
    ((splitSegmentsAux n s e).map (fun seg => seg.2 - seg.1)).sum = e - s := by
  intro n
  induction n with
  | zero =>
    intro s e hn hse
    simp only [splitSegmentsAux, List.map_nil, List.sum_nil]
    omega
  | succ n ih =>
    intro s e hn hse
    by_cases h : s < e
    · have hlt := lt_nextHourBoundary s
      have h1 : s < min (nextHourBoundary s) e := lt_min hlt h
      have h2 : min (nextHourBoundary s) e ≤ e := min_le_right _ _
      have hrec := ih (min (nextHourBoundary s) e) e (by omega) h2
      simp only [splitSegmentsAux, h, if_true, List.map_cons, List.sum_cons, hrec]
      omega
    · simp only [splitSegmentsAux, h, if_false, List.map_nil, List.sum_nil]
      omega

theorem splitSegments_lenSum (s e : ℤ) (hse : s ≤ e) :
    ((splitSegments s e).map (fun seg => seg.2 - seg.1)).sum = e - s :=
  splitSegmentsAux_lenSum (e - s).toNat s e le_rfl hse

theorem splitSegmentsAux_mem : ∀ (n : ℕ) (s e : ℤ) (seg : ℤ × ℤ),
    seg ∈ splitSegmentsAux n s e →
    seg.1 < seg.2 ∧ seg.2 ≤ nextHourBoundary seg.1 ∧ s ≤ seg.1 ∧ seg.2 ≤ e := by
  intro n
  induction n with
  | zero => intro s e seg hmem; simp [splitSegmentsAux] at hmem
  | succ n ih =>
    intro s e seg hmem
    by_cases h : s < e
    · simp only [splitSegmentsAux, h, if_true, List.mem_cons] at hmem
      rcases hmem with rfl | hmem
      · refine ⟨lt_min (lt_nextHourBoundary s) h, min_le_left _ _, le_rfl, min_le_right _ _⟩
      · have := ih (min (nextHourBoundary s) e) e seg hmem
        have h1 : s < min (nextHourBoundary s) e := lt_min (lt_nextHourBoundary s) h
        exact ⟨this.1, this.2.1, by omega, this.2.2.2⟩
    · simp [splitSegmentsAux, h] at hmem

theorem segHours_sum : ∀ segs : List (ℤ × ℤ),
    (segs.map segHours).sum = (((segs.map (fun seg => seg.2 - seg.1)).sum : ℤ) : ℚ) / 1000 / 3600 := by
  intro segs
  induction segs with
  | nil => simp
  | cons a tl ih =>
    simp only [List.map_cons, List.sum_cons, ih, segHours]
    push_cast
    ring

/-! ### Bucket accumulation: sums and per-bucket characterization -/

theorem sum_bump (b : Fin 24 → ℚ) (i : Fin 24) (q : ℚ) :
    (∑ j, bump b i q j) = (∑ j, b j) + q := by
  have hpt : ∀ j : Fin 24, bump b i q j = b j + (if j = i then q else 0) := by
    intro j
    by_cases hj : j = i <;> simp [bump, hj]
  simp only [hpt]
  rw [Finset.sum_add_distrib]
  simp

theorem foldl_bump_sum (w : ℚ) : ∀ (segs : List (ℤ × ℤ)) (b : Fin 24 → ℚ),
    (∑ j, (segs.foldl (fun bk seg => bump bk (hourOfDay seg.1) (w * segHours seg)) b) j)
      = (∑ j, b j) + w * (segs.map segHours).sum := by
  intro segs
  induction segs with
  | nil => intro b; simp
  | cons a tl ih =>
    intro b
    rw [List.foldl_cons, ih, sum_bump]
    simp only [List.map_cons, List.sum_cons]
    ring

theorem foldl_bump_apply (w : ℚ) : ∀ (segs : List (ℤ × ℤ)) (b : Fin 24 → ℚ) (j : Fin 24),
    (segs.foldl (fun bk seg => bump bk (hourOfDay seg.1) (w * segHours seg)) b) j
      = b j + w * ((segs.filter (fun seg => decide (hourOfDay seg.1 = j))).map segHours).sum := by
  intro segs
  induction segs with
  | nil => intro b j; simp
  | cons a tl ih =>
    intro b j
    rw [List.foldl_cons, ih]
    by_cases hj : hourOfDay a.1 = j
    · subst hj
      simp [List.filter_cons, bump]
      ring
    · have hj2 : ¬ j = hourOfDay a.1 := fun h => hj h.symm
      simp [List.filter_cons, hj, hj2, bump]

/-! ### Integrator-level lemmas -/

theorem sum_addEnergyToHours (prev curr : Sample) (h : prev.ts ≤ curr.ts) (b : Fin 24 → ℚ) :
    (∑ j, addEnergyToHours prev curr b j) = (∑ j, b j) + pairEnergy prev curr := by
  unfold addEnergyToHours
  rw [foldl_bump_sum, segHours_sum, splitSegments_lenSum prev.ts curr.ts h]
  unfold pairEnergy intervalHours
  ring

theorem sum_hourlyBillBuckets : ∀ (l : List Sample) (b : Fin 24 → ℚ),
    List.Chain' (fun a c => a.ts ≤ c.ts) l →
    (∑ j, hourlyBillBuckets l b j) = (∑ j, b j) + totalEnergyKwh l := by
  intro l
  induction l with
  | nil => intro b _; simp [hourlyBillBuckets, totalEnergyKwh]
  | cons a tl ih =>
    intro b hch
    cases tl with
    | nil => simp [hourlyBillBuckets, totalEnergyKwh]
    | cons c rest =>
      rw [List.chain'_cons] at hch
      show (∑ j, hourlyBillBuckets (c :: rest) (addEnergyToHours a c b) j) = _
      rw [ih (addEnergyToHours a c b) hch.2, sum_addEnergyToHours a c hch.1 b]
      show _ = _ + (pairEnergy a c + totalEnergyKwh (c :: rest))
      ring

theorem sum_hourlySummaryBuckets : ∀ (l : List Sample) (b : Fin 24 → ℚ),
    (∑ j, hourlySummaryBuckets l b j) = (∑ j, b j) + totalEnergyKwh l := by
  intro l
  induction l with
  | nil => intro b; simp [hourlySummaryBuckets, totalEnergyKwh]
  | cons a tl ih =>
    intro b
    cases tl with
    | nil => simp [hourlySummaryBuckets, totalEnergyKwh]
    | cons c rest =>
      show (∑ j, hourlySummaryBuckets (c :: rest) (bump b (hourOfDay a.ts) (pairEnergy a c)) j) = _
      rw [ih (bump b (hourOfDay a.ts) (pairEnergy a c)), sum_bump]
      show _ = _ + (pairEnergy a c + totalEnergyKwh (c :: rest))
      ring

/-! ### Running max / min accumulators of `/daily-bill` -/

theorem foldl_max_charact : ∀ (l : List ℚ) (m : ℚ),
    (l.foldl (fun acc p => if acc < p then p else acc) m = m
      ∨ l.foldl (fun acc p => if acc < p then p else acc) m ∈ l)
    ∧ m ≤ l.foldl (fun acc p => if acc < p then p else acc) m
    ∧ ∀ p ∈ l, p ≤ l.foldl (fun acc p => if acc < p then p else acc) m := by
  intro l
  induction l with
  | nil => intro m; simp
  | cons a tl ih =>
    intro m
    rw [List.foldl_cons]
    obtain ⟨h1, h2, h3⟩ := ih (if m < a then a else m)
    have hma : m ≤ (if m < a then a else m) := by split <;> linarith
    have haa : a ≤ (if m < a then a else m) := by split <;> linarith
    refine ⟨?_, le_trans hma h2, ?_⟩
    · rcases h1 with heq | hmem
      · rw [heq]
        by_cases hlt : m < a <;> simp [hlt]
      · right
        exact List.mem_cons_of_mem a hmem
    · intro p hp
      rcases List.mem_cons.1 hp with rfl | hp'
      · exact le_trans haa h2
      · exact h3 p hp'

theorem foldl_min_charact : ∀ (l : List ℚ) (v : ℚ),
    ∃ w, l.foldl
        (fun m p => match m with
          | none => some p
          | some u => if p < u then some p else some u)
        (some v) = some w
      ∧ (w = v ∨ w ∈ l) ∧ w ≤ v ∧ ∀ p ∈ l, w ≤ p := by
  intro l
  induction l with
  | nil => intro v; exact ⟨v, rfl, Or.inl rfl, le_rfl, by simp⟩
  | cons a tl ih =>
    intro v
    have hred : List.foldl
        (fun m p => match m with
          | none => some p
          | some u => if p < u then some p else some u)
        (some v) (a :: tl)
      = List.foldl
        (fun m p => match m with
          | none => some p
          | some u => if p < u then some p else some u)
        (some (if a < v then a else v)) tl := by
      by_cases hlt : a < v <;> simp [hlt]
    rw [hred]
    obtain ⟨w, hw, h1, h2, h3⟩ := ih (if a < v then a else v)
    have hv : (if a < v then a else v) ≤ v := by split <;> linarith
    have ha : (if a < v then a else v) ≤ a := by split <;> linarith
    refine ⟨w, hw, ?_, le_trans h2 hv, ?_⟩
    · rcases h1 with rfl | hmem
      · by_cases hlt : a < v <;> simp [hlt]
      · right
        exact List.mem_cons_of_mem a hmem
    · intro p hp
      rcases List.mem_cons.1 hp with rfl | hp'
      · exact le_trans h2 ha
      · exact h3 p hp'

theorem minPowerAcc_cons (p : ℚ) (tl : List ℚ) :
    minPowerAcc (p :: tl) = tl.foldl
      (fun m q => match m with
        | none => some q
        | some u => if q < u then some q else some u)
      (some p) := rfl

/-! ### Peak-monitor lemmas -/

theorem thresholdCount_append (l1 l2 : List Notif) :
    thresholdCount (l1 ++ l2) = thresholdCount l1 + thresholdCount l2 := by
  simp [thresholdCount, List.filter_append]

theorem checkStep_sameDay (today : String) (thr : ℚ) (x : PeakSample) (s : PeakState)
    (h : s.date = today) :
    (checkDailyPeakStep today thr x s).1.date = today
    ∧ (checkDailyPeakStep today thr x s).1.alertSent = (s.alertSent || decide (thr ≤ x.power))
    ∧ thresholdCount (checkDailyPeakStep today thr x s).2
        = (if thr ≤ x.power ∧ s.alertSent = false then 1 else 0) := by
  unfold checkDailyPeakStep
  simp only [h, ne_eq, not_true_eq_false, if_false, ite_not]
  split_ifs <;> simp_all [thresholdCount_append, thresholdCount]

theorem thresholdCount_runMonitor : ∀ (xs : List PeakSample) (today : String) (thr : ℚ)
    (s : PeakState), s.date = today →
    thresholdCount (runMonitor today thr xs s).2 ≤ (if s.alertSent then 0 else 1) := by
  intro xs
  induction xs with
  | nil =>
    intro today thr s hs
    simp [runMonitor, thresholdCount]
  | cons x tl ih =>
    intro today thr s hs
    obtain ⟨hd, ha, hc⟩ := checkStep_sameDay today thr x s hs
    have hrec := ih today thr (checkDailyPeakStep today thr x s).1 hd
    rw [ha] at hrec
    show thresholdCount ((checkDailyPeakStep today thr x s).2
      ++ (runMonitor today thr tl (checkDailyPeakStep today thr x s).1).2) ≤ _
    rw [thresholdCount_append, hc]
    cases hb : s.alertSent with
    | true =>
      rw [hb] at hrec
      simp only [Bool.true_or, if_true] at hrec
      simpa using hrec
    | false =>
      rw [hb] at hrec
      simp only [Bool.false_or] at hrec
      by_cases hp : thr ≤ x.power
      · have hdec : decide (thr ≤ x.power) = true := decide_eq_true hp
        rw [hdec] at hrec
        simp only [if_true] at hrec
        simp only [hp, true_and]
        simp
        omega
      · have hdec : decide (thr ≤ x.power) = false := by simp [hp]
        rw [hdec] at hrec
        simp only [Bool.false_eq_true, if_false] at hrec
        simp [hp]
        omega

/-! ### Claim theorems -/

/-- C1: for every two-sample sequence `[(t0,p0),(t1,p1)]` with `t0 < t1`, the
integrator's output is `(p0+p1)/2 * (t1-t0 in hours)` exactly, and the
hour-bucketed variant attributes exactly the same total energy; in particular
`[(00:00,10kW),(01:00,20kW)]` yields 15 kWh, and at the default rate 4.4 the
bill is 66.00. -/
theorem C1_two_sample_integrator (a b : Sample) (h : a.ts < b.ts) :
    totalEnergyKwh [a, b] = ((a.power + b.power) / 2) * (((b.ts - a.ts : ℤ) : ℚ) / 3600000)
    ∧ (∑ j, addEnergyToHours a b (fun _ => 0) j)
        = ((a.power + b.power) / 2) * (((b.ts - a.ts : ℤ) : ℚ) / 3600000)
    ∧ totalEnergyKwh [⟨0, 10⟩, ⟨3600000, 20⟩] = 15
    ∧ calculateBill (totalEnergyKwh [⟨0, 10⟩, ⟨3600000, 20⟩]) = 66 := by
  have hle := le_of_lt h
  have hpair : pairEnergy a b = ((a.power + b.power) / 2) * (((b.ts - a.ts : ℤ) : ℚ) / 3600000) := by
    unfold pairEnergy avgPower intervalHours
    ring
  have htot : totalEnergyKwh [a, b] = pairEnergy a b := by
    simp [totalEnergyKwh]
  refine ⟨htot.trans hpair, ?_, ?_, ?_⟩
  · rw [sum_addEnergyToHours a b hle, ← hpair]
    simp
  · norm_num [totalEnergyKwh, pairEnergy, avgPower, intervalHours]
  · norm_num [totalEnergyKwh, pairEnergy, avgPower, intervalHours, calculateBill,
      defaultRate, round2, round_eq]

/-- Witness for C1 at the spec's own example input. -/
theorem C1_two_sample_integrator_witness :
    (0 : ℤ) < 3600000
    ∧ (totalEnergyKwh [⟨0, 10⟩, ⟨3600000, 20⟩]
          = ((10 + 20) / 2) * (((3600000 - 0 : ℤ) : ℚ) / 3600000)
        ∧ (∑ j, addEnergyToHours ⟨0, 10⟩ ⟨3600000, 20⟩ (fun _ => 0) j)
          = ((10 + 20) / 2) * (((3600000 - 0 : ℤ) : ℚ) / 3600000)
        ∧ totalEnergyKwh [⟨0, 10⟩, ⟨3600000, 20⟩] = 15
        ∧ calculateBill (totalEnergyKwh [⟨0, 10⟩, ⟨3600000, 20⟩]) = 66) :=
  ⟨by decide, C1_two_sample_integrator ⟨0, 10⟩ ⟨3600000, 20⟩ (by decide)⟩

/-- C2: for a consecutive pair A (earlier) and B (later), the energy the code
attributes to the interval is `avg(power_A, power_B) * (ts_B - ts_A in hours)`:
the unbucketed loop adds exactly that amount, the bucketed loop adds exactly
that amount in total across the 24 buckets, each bucket receives the prorated
hours of precisely the sub-intervals starting in it, and the sub-intervals
split at hour boundaries (each ends no later than the boundary after its
start and stays inside the pair's interval). -/
theorem C2_pair_attribution (prev curr : Sample) (rest : List Sample)
    (b : Fin 24 → ℚ) (j : Fin 24) (h : prev.ts ≤ curr.ts) :
    totalEnergyKwh (prev :: curr :: rest)
        = avgPower prev curr * (((curr.ts - prev.ts : ℤ) : ℚ) / 3600000)
          + totalEnergyKwh (curr :: rest)
    ∧ (∑ i, addEnergyToHours prev curr b i)
        = (∑ i, b i) + avgPower prev curr * (((curr.ts - prev.ts : ℤ) : ℚ) / 3600000)
    ∧ addEnergyToHours prev curr b j
        = b j + avgPower prev curr
            * (((splitSegments prev.ts curr.ts).filter
                  (fun seg => decide (hourOfDay seg.1 = j))).map segHours).sum
    ∧ (∀ seg ∈ splitSegments prev.ts curr.ts,
        seg.1 < seg.2 ∧ seg.2 ≤ nextHourBoundary seg.1
          ∧ prev.ts ≤ seg.1 ∧ seg.2 ≤ curr.ts) := by
  have hpair : pairEnergy prev curr
      = avgPower prev curr * (((curr.ts - prev.ts : ℤ) : ℚ) / 3600000) := by
    unfold pairEnergy intervalHours
    ring
  refine ⟨?_, ?_, ?_, ?_⟩
  · rw [← hpair]
    simp [totalEnergyKwh]
  · rw [sum_addEnergyToHours prev curr h b, hpair]
  · unfold addEnergyToHours
    exact foldl_bump_apply (avgPower prev curr) (splitSegments prev.ts curr.ts) b j
  · intro seg hmem
    exact splitSegmentsAux_mem (curr.ts - prev.ts).toNat prev.ts curr.ts seg hmem

/-- Witness for C2 on a pair spanning one and a half hours. -/
theorem C2_pair_attribution_witness :
    (0 : ℤ) ≤ 5400000
    ∧ (totalEnergyKwh [⟨0, 10⟩, ⟨5400000, 20⟩]
          = avgPower ⟨0, 10⟩ ⟨5400000, 20⟩ * (((5400000 - 0 : ℤ) : ℚ) / 3600000)
            + totalEnergyKwh [⟨5400000, 20⟩]
        ∧ (∑ i, addEnergyToHours ⟨0, 10⟩ ⟨5400000, 20⟩ (fun _ => 0) i)
          = (∑ i : Fin 24, (0 : ℚ)) + avgPower ⟨0, 10⟩ ⟨5400000, 20⟩ * (((5400000 - 0 : ℤ) : ℚ) / 3600000)
        ∧ addEnergyToHours ⟨0, 10⟩ ⟨5400000, 20⟩ (fun _ => 0) 0
          = 0 + avgPower ⟨0, 10⟩ ⟨5400000, 20⟩
              * (((splitSegments 0 5400000).filter
                    (fun seg => decide (hourOfDay seg.1 = 0))).map segHours).sum
        ∧ (∀ seg ∈ splitSegments 0 5400000,
            seg.1 < seg.2 ∧ seg.2 ≤ nextHourBoundary seg.1
              ∧ 0 ≤ seg.1 ∧ seg.2 ≤ 5400000)) :=
  ⟨by decide, C2_pair_attribution ⟨0, 10⟩ ⟨5400000, 20⟩ [] (fun _ => 0) 0 (by decide)⟩

/-- C4: the billing calculator is pure and total (it is a Lean function) and
satisfies `bill(e,r) = round(e*r, 2)` for nonnegative inputs, `bill(0,r) = 0`
for every rate, and the default rate is the fixed constant 4.4 per kWh. -/
theorem C4_calculateBill (e r : ℚ) (he : 0 ≤ e) (hr : 0 ≤ r) :
    calculateBill e r = round2 (e * r)
    ∧ calculateBill 0 r = 0
    ∧ calculateBill e = round2 (e * (44 / 10))
    ∧ defaultRate = 44 / 10 := by
  refine ⟨rfl, ?_, rfl, rfl⟩
  norm_num [calculateBill, round2]

/-- Witness for C4 at energy 3 kWh and rate 2. -/
theorem C4_calculateBill_witness :
    (0 : ℚ) ≤ 3 ∧ (0 : ℚ) ≤ 2
    ∧ (calculateBill 3 2 = round2 (3 * 2)
        ∧ calculateBill 0 2 = 0
        ∧ calculateBill 3 = round2 (3 * (44 / 10))
        ∧ defaultRate = 44 / 10) :=
  ⟨by norm_num, by norm_num, C4_calculateBill 3 2 (by norm_num) (by norm_num)⟩

/-- C6: `/daily-bill` answers 400 exactly when the date string fails the
`^\d{4}-\d{2}-\d{2}$` format check — a calendar-invalid but format-matching
string such as `2025-02-31` passes the check and is not rejected — and a
well-formatted request whose day query returns no samples answers 404 with the
zeroed metrics `total_energy_kwh: 0` and `electricity_bill: 0`. -/
theorem C6_daily_bill_validation (d1 d2 : String) (data1 data2 : List Sample)
    (hfmt : matchesDateFormat d2 = true) (hempty : data2 = []) :
    ((dailyBillHandler d1 data1).status = 400 ↔ matchesDateFormat d1 = false)
    ∧ matchesDateFormat "2025-02-31" = true
    ∧ (dailyBillHandler "2025-02-31" data1).status ≠ 400
    ∧ (dailyBillHandler d2 data2).status = 404
    ∧ (dailyBillHandler d2 data2).total_energy_kwh = 0
    ∧ (dailyBillHandler d2 data2).electricity_bill = 0 := by
  subst hempty
  have hinv : matchesDateFormat "2025-02-31" = true := by decide
  refine ⟨?_, hinv, ?_, ?_, ?_, ?_⟩
  · unfold dailyBillHandler
    split_ifs with hf hl <;> simp_all
  · unfold dailyBillHandler
    rw [hinv]
    split_ifs with hf hl <;> simp_all
  · unfold dailyBillHandler
    rw [hfmt]
    simp
  · unfold dailyBillHandler
    rw [hfmt]
    simp
  · unfold dailyBillHandler
    rw [hfmt]
    simp

/-- Witness for C6: a malformed date, the calendar-invalid `2025-02-31`, and
an empty day query. -/
theorem C6_daily_bill_validation_witness :
    matchesDateFormat "2025-12-01" = true ∧ ([] : List Sample) = []
    ∧ (((dailyBillHandler "2025/02/31" [⟨0, 1⟩]).status = 400
          ↔ matchesDateFormat "2025/02/31" = false)
        ∧ matchesDateFormat "2025-02-31" = true
        ∧ (dailyBillHandler "2025-02-31" [⟨0, 1⟩]).status ≠ 400
        ∧ (dailyBillHandler "2025-12-01" []).status = 404
        ∧ (dailyBillHandler "2025-12-01" []).total_energy_kwh = 0
        ∧ (dailyBillHandler "2025-12-01" []).electricity_bill = 0) :=
  ⟨by decide, rfl, C6_daily_bill_validation "2025/02/31" "2025-12-01" [⟨0, 1⟩] [] (by decide) rfl⟩

/-- C10: for a valid request with a non-empty day, `/daily-bill` reports
`max_power_kw` as (the 2-decimal presentation of) the maximum of 0 and all
sample powers — the accumulator starts at 0, so an all-negative day reports
`max_power_kw = 0` — while `min_power_kw` starts at `Infinity` and is always
(the 2-decimal presentation of) the true minimum sample power. -/
theorem C10_max_min_power (dateStr : String) (data : List Sample)
    (hfmt : matchesDateFormat dateStr = true) (hne : data ≠ []) :
    (dailyBillHandler dateStr data).max_power_kw
        = round2 (maxPowerAcc (data.map Sample.power))
    ∧ 0 ≤ maxPowerAcc (data.map Sample.power)
    ∧ (maxPowerAcc (data.map Sample.power) = 0
        ∨ maxPowerAcc (data.map Sample.power) ∈ data.map Sample.power)
    ∧ (∀ p ∈ data.map Sample.power, p ≤ maxPowerAcc (data.map Sample.power))
    ∧ (∃ m, minPowerAcc (data.map Sample.power) = some m
        ∧ m ∈ data.map Sample.power
        ∧ (∀ p ∈ data.map Sample.power, m ≤ p)
        ∧ (dailyBillHandler dateStr data).min_power_kw = round2 m)
    ∧ (dailyBillHandler "2025-01-02" [⟨0, -5⟩, ⟨3600000, -3⟩]).max_power_kw = 0
    ∧ (dailyBillHandler "2025-01-02" [⟨0, -5⟩, ⟨3600000, -3⟩]).min_power_kw = -5 := by
  have hlen : ¬ data.length = 0 := by
    simpa [List.length_eq_zero] using hne
  have hresp : dailyBillHandler dateStr data
      = ⟨200, data.length, round2 (totalEnergyKwh data),
          round2 ((data.map Sample.power).sum / (data.length : ℚ)),
          round2 (maxPowerAcc (data.map Sample.power)),
          round2 ((minPowerAcc (data.map Sample.power)).getD 0),
          calculateBill (totalEnergyKwh data), defaultRate⟩ := by
    unfold dailyBillHandler
    rw [hfmt]
    simp [hlen]
  obtain ⟨hm1, hm2, hm3⟩ := foldl_max_charact (data.map Sample.power) 0
  refine ⟨by rw [hresp], hm2, hm1, hm3, ?_, ?_, ?_⟩
  · match data, hne with
    | a :: tl, _ =>
      obtain ⟨w, hw, hw1, hw2, hw3⟩ := foldl_min_charact (tl.map Sample.power) a.power
      have hmin : minPowerAcc ((a :: tl).map Sample.power) = some w := by
        rw [List.map_cons, minPowerAcc_cons]
        exact hw
      refine ⟨w, hmin, ?_, ?_, ?_⟩
      · rcases hw1 with rfl | hmem
        · exact List.mem_cons_self _ _
        · exact List.mem_cons_of_mem _ hmem
      · intro p hp
        rcases List.mem_cons.1 hp with rfl | hp'
        · exact hw2
        · exact hw3 p hp'
      · rw [hresp, hmin]
        rfl
  · norm_num [dailyBillHandler, show matchesDateFormat "2025-01-02" = true from by decide,
      maxPowerAcc, round2]
  · norm_num [dailyBillHandler, show matchesDateFormat "2025-01-02" = true from by decide,
      minPowerAcc, round2, round_eq]

/-- Witness for C10 on the all-negative two-sample day. -/
theorem C10_max_min_power_witness :
    matchesDateFormat "2025-01-02" = true
    ∧ ([⟨0, -5⟩, ⟨3600000, -3⟩] : List Sample) ≠ []
    ∧ ((dailyBillHandler "2025-01-02" [⟨0, -5⟩, ⟨3600000, -3⟩]).max_power_kw
          = round2 (maxPowerAcc (([⟨0, -5⟩, ⟨3600000, -3⟩] : List Sample).map Sample.power)))
    ∧ (0 ≤ maxPowerAcc (([⟨0, -5⟩, ⟨3600000, -3⟩] : List Sample).map Sample.power)) := by
  have h := C10_max_min_power "2025-01-02" [⟨0, -5⟩, ⟨3600000, -3⟩] (by decide) (by simp)
  exact ⟨by decide, by simp, h.1, h.2.1⟩

/-- C3 counterexample: three samples at 00:00, 01:00, 02:00 with constant power
0.005 kW put 0.005 kWh into each of two buckets; the endpoints report each
bucket rounded to 0.01, so the reported bucket sum is 0.02 while the unbucketed
total for the same window is 0.01 (rounded or not) — the reported bucket
energies do not sum to the unbucketed total. -/
theorem C3_counterexample :
    (∑ j, round2 (hourlySummaryBuckets
        [⟨0, 1/200⟩, ⟨3600000, 1/200⟩, ⟨7200000, 1/200⟩] (fun _ => 0) j))
      ≠ round2 (totalEnergyKwh [⟨0, 1/200⟩, ⟨3600000, 1/200⟩, ⟨7200000, 1/200⟩])
    ∧ (∑ j, round2 (hourlySummaryBuckets
        [⟨0, 1/200⟩, ⟨3600000, 1/200⟩, ⟨7200000, 1/200⟩] (fun _ => 0) j))
      ≠ totalEnergyKwh [⟨0, 1/200⟩, ⟨3600000, 1/200⟩, ⟨7200000, 1/200⟩] := by
  have h0 : hourOfDay 0 = ⟨0, by omega⟩ := by
    unfold hourOfDay msPerHour
    norm_num
  have h1 : hourOfDay 3600000 = ⟨1, by omega⟩ := by
    unfold hourOfDay msPerHour
    norm_num
  have hbuckets : ∀ j : Fin 24, hourlySummaryBuckets
      [⟨0, 1/200⟩, ⟨3600000, 1/200⟩, ⟨7200000, 1/200⟩] (fun _ => 0) j
      = if j = (⟨1, by omega⟩ : Fin 24) then 1/200
        else if j = (⟨0, by omega⟩ : Fin 24) then 1/200 else 0 := by
    intro j
    simp only [hourlySummaryBuckets, bump, h0, h1]
    split_ifs with hA hB
    · exact absurd (hA.symm.trans hB) (by decide)
    · norm_num [pairEnergy, avgPower, intervalHours]
    · norm_num [pairEnergy, avgPower, intervalHours]
    · rfl
  have htot : totalEnergyKwh [⟨0, 1/200⟩, ⟨3600000, 1/200⟩, ⟨7200000, 1/200⟩] = 1/100 := by
    norm_num [totalEnergyKwh, pairEnergy, avgPower, intervalHours]
  have hfun : (fun j => round2 (hourlySummaryBuckets
      [⟨0, 1/200⟩, ⟨3600000, 1/200⟩, ⟨7200000, 1/200⟩] (fun _ => 0) j))
      = bump (bump (fun _ => 0) ⟨0, by omega⟩ (1/100)) ⟨1, by omega⟩ (1/100) := by
    funext j
    rw [hbuckets j]
    unfold bump
    split_ifs with hA hB
    · exact absurd (hA.symm.trans hB) (by decide)
    · norm_num [round2, round_eq]
    · norm_num [round2, round_eq]
    · norm_num [round2, round_eq]
  have hsum : (∑ j, round2 (hourlySummaryBuckets
      [⟨0, 1/200⟩, ⟨3600000, 1/200⟩, ⟨7200000, 1/200⟩] (fun _ => 0) j)) = 2/100 := by
    rw [show (fun j => round2 (hourlySummaryBuckets
      [⟨0, 1/200⟩, ⟨3600000, 1/200⟩, ⟨7200000, 1/200⟩] (fun _ => 0) j))
      = bump (bump (fun _ => 0) ⟨0, by omega⟩ (1/100)) ⟨1, by omega⟩ (1/100) from hfun,
      sum_bump, sum_bump]
    norm_num
  rw [hsum, htot]
  norm_num [round2, round_eq]

/-- C3 amended: before the 2-decimal presentation rounding (and absent the
future-hour zeroing `/hourly-bill` applies when the requested date is the
current day), partition completeness does hold: for an ordered sample list the
24 hour-buckets of both hourly endpoints sum exactly to the unbucketed total
of the same window. -/
theorem C3_partition_completeness (l : List Sample)
    (h : List.Chain' (fun a c => a.ts ≤ c.ts) l) :
    (∑ j, hourlySummaryBuckets l (fun _ => 0) j) = totalEnergyKwh l
    ∧ (∑ j, hourlyBillBuckets l (fun _ => 0) j) = totalEnergyKwh l := by
  constructor
  · rw [sum_hourlySummaryBuckets l (fun _ => 0)]
    simp
  · rw [sum_hourlyBillBuckets l (fun _ => 0) h]
    simp

/-- Witness for the amended C3 on a three-sample window crossing two hour
boundaries. -/
theorem C3_partition_completeness_witness :
    List.Chain' (fun a c : Sample => a.ts ≤ c.ts) [⟨0, 4⟩, ⟨5400000, 6⟩, ⟨7200000, 2⟩]
    ∧ ((∑ j, hourlySummaryBuckets [⟨0, 4⟩, ⟨5400000, 6⟩, ⟨7200000, 2⟩] (fun _ => 0) j)
          = totalEnergyKwh [⟨0, 4⟩, ⟨5400000, 6⟩, ⟨7200000, 2⟩]
        ∧ (∑ j, hourlyBillBuckets [⟨0, 4⟩, ⟨5400000, 6⟩, ⟨7200000, 2⟩] (fun _ => 0) j)
          = totalEnergyKwh [⟨0, 4⟩, ⟨5400000, 6⟩, ⟨7200000, 2⟩]) := by
  have hch : List.Chain' (fun a c : Sample => a.ts ≤ c.ts)
      [⟨0, 4⟩, ⟨5400000, 6⟩, ⟨7200000, 2⟩] := by
    simp [List.chain'_cons]
  exact ⟨hch, C3_partition_completeness [⟨0, 4⟩, ⟨5400000, 6⟩, ⟨7200000, 2⟩] hch⟩

/-- C5 counterexample: a day of constant 0.004 kW over one hour has total
energy 0.004 kWh; `/calendar` rounds it to 0.00 before billing and reports a
bill of 0, while billing the unrounded energy gives round2(0.0176) = 0.02 —
so billing is not computed only from unrounded energy at the boundary. -/
theorem C5_counterexample :
    calendarBill [⟨0, 1/250⟩, ⟨3600000, 1/250⟩]
      ≠ calculateBill (totalEnergyKwh [⟨0, 1/250⟩, ⟨3600000, 1/250⟩]) := by
  have htot : totalEnergyKwh [⟨0, 1/250⟩, ⟨3600000, 1/250⟩] = 1/250 := by
    norm_num [totalEnergyKwh, pairEnergy, avgPower, intervalHours]
  rw [calendarBill, calendarDayEnergy, htot]
  norm_num [calculateBill, round2, round_eq, defaultRate]

/-- C5 amended: `/daily-bill` does compute its bill from the unrounded total,
but `/calendar` bills the already-rounded energy, `/hourly-summary` bills each
already-rounded bucket (0.005 kWh yields bill 0.04 instead of 0.02), and
`/solar-size` sums the already-rounded buckets for the daytime aggregation
(thirteen buckets of 0.005 kWh sum to 0.13 instead of round2(0.065) = 0.07) —
rounding is applied mid-computation in those three endpoints. -/
theorem C5_rounding_boundary (dateStr : String) (data l : List Sample)
    (hfmt : matchesDateFormat dateStr = true) (hne : data ≠ []) :
    (dailyBillHandler dateStr data).electricity_bill = calculateBill (totalEnergyKwh data)
    ∧ calendarBill l = calculateBill (round2 (totalEnergyKwh l))
    ∧ hourlySummaryBill (1/200) = 4/100
    ∧ calculateBill (1/200) = 2/100
    ∧ solarDaytimeEnergy (fun _ => 1/200) = 13/100
    ∧ round2 ((13 : ℚ) * (1/200)) = 7/100 := by
  have hlen : ¬ data.length = 0 := by
    simpa [List.length_eq_zero] using hne
  refine ⟨?_, rfl, ?_, ?_, ?_, ?_⟩
  · unfold dailyBillHandler
    rw [hfmt]
    simp [hlen]
  · norm_num [hourlySummaryBill, round2, round_eq, defaultRate]
  · norm_num [calculateBill, round2, round_eq, defaultRate]
  · unfold solarDaytimeEnergy
    have hval : round2 ((1:ℚ)/200) = 1/100 := by
      norm_num [round2, round_eq]
    simp only [hval]
    rw [Finset.sum_const]
    norm_num [show (Finset.univ.filter (fun j : Fin 24 => 6 ≤ j.val ∧ j.val ≤ 18)).card = 13
      from by decide]
  · norm_num [round2, round_eq]

/-- Witness for the amended C5. -/
theorem C5_rounding_boundary_witness :
    matchesDateFormat "2025-10-03" = true
    ∧ ([⟨0, 1⟩] : List Sample) ≠ []
    ∧ ((dailyBillHandler "2025-10-03" [⟨0, 1⟩]).electricity_bill
          = calculateBill (totalEnergyKwh [⟨0, 1⟩])
        ∧ calendarBill ([] : List Sample) = calculateBill (round2 (totalEnergyKwh []))
        ∧ hourlySummaryBill (1/200) = 4/100
        ∧ calculateBill (1/200) = 2/100
        ∧ solarDaytimeEnergy (fun _ => 1/200) = 13/100
        ∧ round2 ((13 : ℚ) * (1/200)) = 7/100) :=
  ⟨by decide, by simp, C5_rounding_boundary "2025-10-03" [⟨0, 1⟩] [] (by decide) (by simp)⟩

/-- C7 counterexample: starting from a fresh day (maxPower reset to 0), the
power sequence [5,8,3,9,9,12] fires a "new peak" notification at every strict
increase of the running maximum — at 5, 8, 9 and 12 — so four notifications
fire, not two. -/
theorem C7_counterexample :
    (peakPowers (runMonitor "2025-10-11" 1000
        [⟨"2025-10-11", 5⟩, ⟨"2025-10-11", 8⟩, ⟨"2025-10-11", 3⟩,
         ⟨"2025-10-11", 9⟩, ⟨"2025-10-11", 9⟩, ⟨"2025-10-11", 12⟩]
        ⟨"2025-10-11", 0, false⟩).2).length ≠ 2 := by
  norm_num [runMonitor, checkDailyPeakStep, peakPowers, List.filterMap_cons, List.filterMap_nil]

/-- C7 amended: on the fresh-day power sequence [5,8,3,9,9,12] exactly four
"new peak" notifications fire, at 5, 8, 9 and 12. -/
theorem C7_peak_notification_sequence :
    peakPowers (runMonitor "2025-10-11" 1000
        [⟨"2025-10-11", 5⟩, ⟨"2025-10-11", 8⟩, ⟨"2025-10-11", 3⟩,
         ⟨"2025-10-11", 9⟩, ⟨"2025-10-11", 9⟩, ⟨"2025-10-11", 12⟩]
        ⟨"2025-10-11", 0, false⟩).2 = [5, 8, 9, 12] := by
  norm_num [runMonitor, checkDailyPeakStep, peakPowers, List.filterMap_cons, List.filterMap_nil]

/-- C8 counterexample: the code's reset condition compares the wall-clock date
with `dailyPeak.date`, never the latest sample's date. Here the latest sample
is dated 2025-10-10, differing from `dailyPeak.date` = 2025-10-11 (the claim's
reset trigger), the wall clock still reads 2025-10-11, and the poll leaves
`maxPower = 10` and `thresholdAlertSent = true` untouched and emits nothing —
whereas reset-then-evaluate would have left `maxPower = 5` and emitted a peak
notification (last conjunct). -/
theorem C8_counterexample :
    (⟨"2025-10-10", 5⟩ : PeakSample).dateStr ≠ (⟨"2025-10-11", 10, true⟩ : PeakState).date
    ∧ (checkDailyPeakStep "2025-10-11" 20 ⟨"2025-10-10", 5⟩ ⟨"2025-10-11", 10, true⟩).1
        = ⟨"2025-10-11", 10, true⟩
    ∧ (checkDailyPeakStep "2025-10-11" 20 ⟨"2025-10-10", 5⟩ ⟨"2025-10-11", 10, true⟩).2 = []
    ∧ (checkDailyPeakStep "2025-10-11" 20 ⟨"2025-10-10", 5⟩ ⟨"2025-10-11", 0, false⟩).2
        = [Notif.peak 5] := by
  refine ⟨by decide, ?_, ?_, ?_⟩ <;> norm_num [checkDailyPeakStep]

/-- C8 amended: on every poll, if the current wall-clock date differs from
`dailyPeak.date` then `maxPower` is reset to 0 and `thresholdAlertSent` to
false before the sample is evaluated: the poll's outcome is exactly that of
evaluating the sample from the fresh state `{date := today, maxPower := 0,
alertSent := false}`, and the state date becomes today. -/
theorem C8_reset_before_evaluation (today : String) (thr : ℚ) (x : PeakSample)
    (s : PeakState) (h : s.date ≠ today) :
    checkDailyPeakStep today thr x s
        = checkDailyPeakStep today thr x ⟨today, 0, false⟩
    ∧ (checkDailyPeakStep today thr x s).1.date = today := by
  have hstep : checkDailyPeakStep today thr x s
      = checkDailyPeakStep today thr x ⟨today, 0, false⟩ := by
    unfold checkDailyPeakStep
    simp [h]
  refine ⟨hstep, ?_⟩
  rw [hstep]
  unfold checkDailyPeakStep
  simp only [ne_eq, not_true_eq_false, if_false]
  split_ifs <;> simp

/-- Witness for the amended C8: stale state from the previous day, fresh
sample. -/
theorem C8_reset_before_evaluation_witness :
    (⟨"2025-10-10", 3, true⟩ : PeakState).date ≠ "2025-10-11"
    ∧ (checkDailyPeakStep "2025-10-11" 10 ⟨"2025-10-11", 5⟩ ⟨"2025-10-10", 3, true⟩
          = checkDailyPeakStep "2025-10-11" 10 ⟨"2025-10-11", 5⟩ ⟨"2025-10-11", 0, false⟩
        ∧ (checkDailyPeakStep "2025-10-11" 10 ⟨"2025-10-11", 5⟩
            ⟨"2025-10-10", 3, true⟩).1.date = "2025-10-11") :=
  ⟨by decide, C8_reset_before_evaluation "2025-10-11" 10 ⟨"2025-10-11", 5⟩
    ⟨"2025-10-10", 3, true⟩ (by decide)⟩

/-- C9: within a single day (state date equal to the wall-clock date, starting
with the flag clear), the monitor emits the threshold notification at most
once over any sequence of polls; a single poll fires it exactly when the power
is at least the threshold while the flag is clear, and the poll sets the flag
whenever the power reaches the threshold, so no later same-day poll fires
again. -/
theorem C9_threshold_once_per_day (today : String) (thr : ℚ) (xs : List PeakSample)
    (s s' : PeakState) (x : PeakSample)
    (hs : s.date = today) (ha : s.alertSent = false) (hs' : s'.date = today) :
    thresholdCount (runMonitor today thr xs s).2 ≤ 1
    ∧ (thresholdCount (checkDailyPeakStep today thr x s').2 = 1
        ↔ (thr ≤ x.power ∧ s'.alertSent = false))
    ∧ (checkDailyPeakStep today thr x s').1.alertSent
        = (s'.alertSent || decide (thr ≤ x.power)) := by
  obtain ⟨-, ha2, hc2⟩ := checkStep_sameDay today thr x s' hs'
  refine ⟨?_, ?_, ha2⟩
  · have hb := thresholdCount_runMonitor xs today thr s hs
    rw [ha] at hb
    simpa using hb
  · rw [hc2]
    split_ifs with hcond
    · simp [hcond]
    · simp [hcond]

/-- Witness for C9: two polls above the threshold yield a single threshold
notification, and the single-poll firing condition holds concretely. -/
theorem C9_threshold_once_per_day_witness :
    (⟨"2025-10-11", 0, false⟩ : PeakState).date = "2025-10-11"
    ∧ (⟨"2025-10-11", 0, false⟩ : PeakState).alertSent = false
    ∧ (⟨"2025-10-11", 2, false⟩ : PeakState).date = "2025-10-11"
    ∧ (thresholdCount (runMonitor "2025-10-11" 10
          [⟨"2025-10-11", 12⟩, ⟨"2025-10-11", 15⟩] ⟨"2025-10-11", 0, false⟩).2 ≤ 1
        ∧ (thresholdCount (checkDailyPeakStep "2025-10-11" 10 ⟨"2025-10-11", 11⟩
              ⟨"2025-10-11", 2, false⟩).2 = 1
            ↔ ((10:ℚ) ≤ 11 ∧ false = false))
        ∧ (checkDailyPeakStep "2025-10-11" 10 ⟨"2025-10-11", 11⟩
              ⟨"2025-10-11", 2, false⟩).1.alertSent = (false || decide ((10:ℚ) ≤ 11))) :=
  ⟨rfl, rfl, rfl, C9_threshold_once_per_day "2025-10-11" 10
    [⟨"2025-10-11", 12⟩, ⟨"2025-10-11", 15⟩] ⟨"2025-10-11", 0, false⟩
    ⟨"2025-10-11", 2, false⟩ ⟨"2025-10-11", 11⟩ rfl rfl rfl⟩

end Momay
